import Mathlib

/-
Verification development for caffe-jacinto's src/include/caffe/common.hpp:
the Caffe execution-context singleton (mode, RNG facade) and the pooled
GPU memory allocator (MemoryHandler, aliased from CuMem) with its scoped
activation object (MemoryHandlerActivator).

Code that lives in the header is embedded directly.  Bodies that live in
common.cpp / CuMem.cpp are not part of src/, so those operations are
modelled from the spec; each such definition says so in its doc comment.
-/

namespace CaffeSpec

/-- Execution mode Caffe::Brew (common.hpp line 157). -/
inductive Brew where
  | CPU
  | GPU
deriving DecidableEq, Repr

/-- Observable events of the memory subsystem: calls into the MemoryHandler
static API, and device-side effects (pool reservation, pooled or direct
allocation and free, returning reserved memory). -/
inductive Event where
  | usePoolCall
  | setGPUsCall (gpus : List Int)
  | mallocCall (size : Nat)
  | freeCall (ptr : Nat)
  | destroyCall
  | reserve (gpus : List Int)
  | poolAlloc (size : Nat) (ptr : Nat) (stream : Nat)
  | directAlloc (size : Nat) (ptr : Nat)
  | poolFree (ptr : Nat) (stream : Nat)
  | directFree (ptr : Nat)
  | release
deriving DecidableEq, Repr

/-- State of the process-wide MemoryHandler singleton: its fields
using_pool_, initialized_, gpus_ (common.hpp lines 264-266), plus a
counter the device allocator uses to mint distinct non-null pointers. -/
structure MemoryHandler where
  using_pool_ : Bool
  initialized_ : Bool
  gpus_ : List Int
  nextPtr : Nat
deriving DecidableEq, Repr

/-- The private MemoryHandler constructor (common.hpp line 255):
using_pool_(false), initialized_(false); the device vector starts empty. -/
def MemoryHandler.initState : MemoryHandler :=
  { using_pool_ := false, initialized_ := false, gpus_ := [], nextPtr := 0 }

/-- MemoryHandler::setGPUs (common.hpp line 241): records the device list. -/
def MemoryHandler.setGPUs (gpus : List Int) (s : MemoryHandler) :
    MemoryHandler × List Event :=
  ({ s with gpus_ := gpus }, [Event.setGPUsCall gpus])

/-- MemoryHandler::usePool (common.hpp line 242): sets the enabled flag. -/
def MemoryHandler.usePool (s : MemoryHandler) : MemoryHandler × List Event :=
  ({ s with using_pool_ := true }, [Event.usePoolCall])

/-- MemoryHandler::usingPool (common.hpp lines 243-249): with USE_CNMEM
defined it returns the internal enabled flag; without it, false always.
The build toggle is the useCnmem parameter. -/
def MemoryHandler.usingPool (useCnmem : Bool) (s : MemoryHandler) : Bool :=
  if useCnmem then s.using_pool_ else false

/-- Modelled from the spec: MemoryHandler::Init is declared private at
common.hpp line 256 but its body is not under src/.  Spec 4.2: performs
device-side pool setup across all configured devices; idempotent, guarded
by the initialized flag. -/
def MemoryHandler.Init (s : MemoryHandler) : MemoryHandler × List Event :=
  if s.initialized_ then (s, [])
  else ({ s with initialized_ := true }, [Event.reserve s.gpus_])

/-- Mint a fresh device pointer.  Stands in for the device allocator
handing back an address; a successful allocation never returns null
(spec 4.2: allocate never returns a null handle on success). -/
def MemoryHandler.freshPtr (s : MemoryHandler) : MemoryHandler × Nat :=
  ({ s with nextPtr := s.nextPtr + 1 }, s.nextPtr + 1)

/-- Modelled from the spec: MemoryHandler::allocate_memory is declared at
common.hpp line 259, body not under src/.  Spec 4.2: if initialized, the
request is served from the pool scoped to the calling stream; otherwise it
falls back to a direct device allocation (which takes no stream). -/
def MemoryHandler.allocate_memory (s : MemoryHandler) (size stream : Nat) :
    MemoryHandler × Nat × List Event :=
  let r := s.freshPtr
  if s.initialized_ then (r.1, r.2, [Event.poolAlloc size r.2 stream])
  else (r.1, r.2, [Event.directAlloc size r.2])

/-- Modelled from the spec: MemoryHandler::mallocGPU is declared at
common.hpp lines 236-237, body not under src/.  Public entry point for
allocation.  Spec 3 and 4.3 require pool activation to initialize the
pool, and the activator's constructor (lines 271-283) makes no call other
than mallocGPU/freeGPU that could do so; hence the lazy initialization,
guarded by the enabled flag, lives here before delegating to
allocate_memory. -/
def MemoryHandler.mallocGPU (s : MemoryHandler) (size stream : Nat) :
    MemoryHandler × Nat × List Event :=
  if s.using_pool_ && !s.initialized_ then
    let r0 := s.Init
    let r := r0.1.allocate_memory size stream
    (r.1, r.2.1, Event.mallocCall size :: (r0.2 ++ r.2.2))
  else
    let r := s.allocate_memory size stream
    (r.1, r.2.1, Event.mallocCall size :: r.2.2)

/-- Modelled from the spec: MemoryHandler::freeGPU / free_memory are
declared at common.hpp lines 238 and 260, bodies not under src/.
Spec 4.2: releases back to the pool when pooling is active for the
allocation, else releases directly to the device. -/
def MemoryHandler.freeGPU (s : MemoryHandler) (ptr stream : Nat) :
    MemoryHandler × List Event :=
  if s.initialized_ then (s, [Event.freeCall ptr, Event.poolFree ptr stream])
  else (s, [Event.freeCall ptr, Event.directFree ptr])

/-- Modelled from the spec: MemoryHandler::destroy is declared at
common.hpp line 251, body not under src/.  Spec 4.2: tears down the pool,
returns reserved device memory, resets initialized and enabled to false;
safe to call when never initialized, in which case there is no device-side
teardown (and on a fresh state nothing changes at all). -/
def MemoryHandler.destroy (s : MemoryHandler) : MemoryHandler × List Event :=
  if s.initialized_ then
    ({ s with using_pool_ := false, initialized_ := false },
     [Event.destroyCall, Event.release])
  else
    ({ s with using_pool_ := false, initialized_ := false },
     [Event.destroyCall])

/-- The scoped activation object MemoryHandlerActivator (common.hpp lines
269-291).  Its using_pool_ member is declared int in the source and used
as a boolean. -/
structure MemoryHandlerActivator where
  using_pool_ : Bool
deriving DecidableEq, Repr

/-- The MemoryHandlerActivator constructor (common.hpp lines 271-283):
with a non-empty device list it sets its activation flag, then calls
usePool, setGPUs, and a 4-byte mallocGPU immediately followed by freeGPU
of the returned pointer on the default stream (modelled as stream 0);
with an empty list it does nothing. -/
def MemoryHandlerActivator.construct (gpus : List Int) (s : MemoryHandler) :
    MemoryHandlerActivator × MemoryHandler × List Event :=
  if 0 < gpus.length then
    let r1 := s.usePool
    let r2 := MemoryHandler.setGPUs gpus r1.1
    let r3 := r2.1.mallocGPU 4 0
    let r4 := r3.1.freeGPU r3.2.1 0
    ({ using_pool_ := true }, r4.1, r1.2 ++ r2.2 ++ r3.2.2 ++ r4.2)
  else
    ({ using_pool_ := false }, s, [])

/-- The MemoryHandlerActivator destructor (common.hpp lines 284-288):
calls destroy exactly when the activation flag was set.  C++ runs the
destructor on every scope exit, normal return or exception unwind alike;
this function is that single teardown path. -/
def MemoryHandlerActivator.destruct (a : MemoryHandlerActivator)
    (s : MemoryHandler) : MemoryHandler × List Event :=
  if a.using_pool_ then s.destroy else (s, [])

/-- States of the MemoryHandler singleton reachable from construction
through its public mutating interface (setGPUs, usePool, mallocGPU,
freeGPU, destroy); Init is private and runs only inside mallocGPU. -/
inductive Reachable : MemoryHandler → Prop where
  | start : Reachable MemoryHandler.initState
  | usePool {s : MemoryHandler} : Reachable s → Reachable s.usePool.1
  | setGPUs {s : MemoryHandler} (g : List Int) :
      Reachable s → Reachable (MemoryHandler.setGPUs g s).1
  | malloc {s : MemoryHandler} (sz st : Nat) :
      Reachable s → Reachable (s.mallocGPU sz st).1
  | free {s : MemoryHandler} (p st : Nat) :
      Reachable s → Reachable (s.freeGPU p st).1
  | destroy {s : MemoryHandler} : Reachable s → Reachable s.destroy.1

/-- The RNG facade Caffe::RNG (common.hpp lines 161-171).  Its Generator
class lives in common.cpp, not under src/, so its content is modelled
from the spec: one host-side and one device-side deterministic generator
state behind the facade, both reproducible from a seed. -/
structure RNGfacade where
  hostState : Nat
  deviceState : Nat
deriving DecidableEq, Repr

/-- A facade whose host and device generators are both seeded from the
same seed (spec 4.1: consistent reseeding of both backends). -/
def RNGfacade.seeded (seed : Nat) : RNGfacade :=
  { hostState := seed, deviceState := seed }

/-- Modelled from the spec: one deterministic step of a generator state
(a linear-congruential step standing in for the boost / curand backends,
which the spec constrains only to be deterministic in the seed). -/
def rngNext (x : Nat) : Nat := (1103515245 * x + 12345) % 2147483648

/-- Per-thread Caffe execution-context state (common.hpp lines 219-223):
the mode, the coordination counters, and the lazily constructed RNG
facade behind random_generator_. -/
structure CaffeState where
  mode_ : Brew
  solver_count_ : Int
  root_solver_ : Bool
  random_generator_ : Option RNGfacade
deriving DecidableEq, Repr

/-- Modelled from the spec: a freshly constructed per-thread context (the
Caffe constructor body is in common.cpp, not under src/): no RNG facade
yet — it is lazily constructed on first access (spec 4.1 rngStream). -/
def CaffeState.reset : CaffeState :=
  { mode_ := Brew.CPU, solver_count_ := 1, root_solver_ := true,
    random_generator_ := none }

abbrev ThreadId := Nat

/-- The per-thread instance map behind Caffe::Get (declared common.hpp
line 155; the thread-local storage itself is implemented in common.cpp,
not under src/).  Modelled from the spec: one independent context per OS
thread, indexed by thread id. -/
abbrev CaffeThreads := ThreadId → CaffeState

/-- Caffe::set_mode (common.hpp line 197): writes mode_ of the calling
thread's instance. -/
def Caffe.set_mode (t : ThreadId) (m : Brew) (g : CaffeThreads) :
    CaffeThreads :=
  fun u => if u = t then { g u with mode_ := m } else g u

/-- Caffe::mode (common.hpp line 191): reads mode_ of the calling
thread's instance. -/
def Caffe.mode (t : ThreadId) (g : CaffeThreads) : Brew := (g t).mode_

/-- Caffe::rng_stream (common.hpp lines 174-179): returns the facade,
lazily constructing it on first access; the default-seeded construction
is modelled from the spec (RNG() is in common.cpp, not under src/). -/
def Caffe.rng_stream (c : CaffeState) : CaffeState × RNGfacade :=
  match c.random_generator_ with
  | some r => (c, r)
  | none =>
    ({ c with random_generator_ := some (RNGfacade.seeded 5489) },
     RNGfacade.seeded 5489)

/-- Modelled from the spec: Caffe::set_random_seed is declared at
common.hpp line 199, body in common.cpp, not under src/.  Spec 4.1:
reseeds both the host-side and the device-side RNG consistently from the
given seed, replacing any existing generator state. -/
def Caffe.set_random_seed (seed : Nat) (c : CaffeState) : CaffeState :=
  { c with random_generator_ := some (RNGfacade.seeded seed) }

/-- One draw from the host-side (boost) stream of the thread's facade,
obtained through rng_stream and stepping the host generator state. -/
def Caffe.drawHost (c : CaffeState) : CaffeState × Nat :=
  let r := Caffe.rng_stream c
  let v := rngNext r.2.hostState
  ({ r.1 with random_generator_ := some ({ r.2 with hostState := v }) }, v)

/-- One draw from the device-side (curand) stream of the thread's facade,
stepping the device generator state. -/
def Caffe.drawDevice (c : CaffeState) : CaffeState × Nat :=
  let r := Caffe.rng_stream c
  let v := rngNext r.2.deviceState
  ({ r.1 with random_generator_ := some ({ r.2 with deviceState := v }) }, v)

/-- A sequence of n host-side draws. -/
def Caffe.drawHostSeq (c : CaffeState) : Nat → CaffeState × List Nat
  | 0 => (c, [])
  | n + 1 =>
    let r := Caffe.drawHost c
    let rs := Caffe.drawHostSeq r.1 n
    (rs.1, r.2 :: rs.2)

/-- A sequence of n device-side draws. -/
def Caffe.drawDeviceSeq (c : CaffeState) : Nat → CaffeState × List Nat
  | 0 => (c, [])
  | n + 1 =>
    let r := Caffe.drawDevice c
    let rs := Caffe.drawDeviceSeq r.1 n
    (rs.1, r.2 :: rs.2)

/-- Severities of the glog LOG macro used by common.hpp. -/
inductive Severity where
  | INFO
  | WARNING
  | ERROR
  | FATAL
deriving DecidableEq, Repr

/-- Outcome of running a piece of code: it either completes with a value
or terminates the process fatally with a message. -/
inductive Outcome (α : Type) where
  | ok (value : α)
  | fatalError (msg : String)
deriving DecidableEq, Repr

/-- Semantics of glog logging: LOG(FATAL) aborts the process after
emitting the message; every other severity returns control. -/
def LOG (s : Severity) (msg : String) : Outcome Unit :=
  match s with
  | Severity.FATAL => Outcome.fatalError msg
  | _ => Outcome.ok ()

/-- Sequencing of outcomes: a fatal termination short-circuits, so code
after it never runs. -/
def bindOutcome {α β : Type} (o : Outcome α) (k : α → Outcome β) :
    Outcome β :=
  match o with
  | Outcome.ok a => k a
  | Outcome.fatalError m => Outcome.fatalError m

/-- The NOT_IMPLEMENTED macro (common.hpp line 110):
LOG(FATAL) with the message Not Implemented Yet. -/
def NOT_IMPLEMENTED : Outcome Unit := LOG Severity.FATAL "Not Implemented Yet"

/-- After a non-empty construction the singleton is enabled and
initialized, whichever state it started from. -/
theorem construct_state_flags (gpus : List Int) (s0 : MemoryHandler)
    (h : 0 < gpus.length) :
    (MemoryHandlerActivator.construct gpus s0).2.1.using_pool_ = true ∧
    (MemoryHandlerActivator.construct gpus s0).2.1.initialized_ = true ∧
    (MemoryHandlerActivator.construct gpus s0).1.using_pool_ = true := by
  by_cases hi : s0.initialized_ <;>
    simp [MemoryHandlerActivator.construct, MemoryHandler.usePool,
      MemoryHandler.setGPUs, MemoryHandler.mallocGPU, MemoryHandler.Init,
      MemoryHandler.allocate_memory, MemoryHandler.freshPtr,
      MemoryHandler.freeGPU, h, hi]

/-- After a non-empty construction, the destructor emits exactly the
destroy call followed by the device releasing its reservation. -/
theorem destruct_after_construct_trace (gpus : List Int) (s0 : MemoryHandler)
    (h : 0 < gpus.length) :
    (((MemoryHandlerActivator.construct gpus s0).1).destruct
        (MemoryHandlerActivator.construct gpus s0).2.1).2
      = [Event.destroyCall, Event.release] := by
  obtain ⟨-, h2, h3⟩ := construct_state_flags gpus s0 h
  simp [MemoryHandlerActivator.destruct, MemoryHandler.destroy, h2, h3]

/-- C1: a MemoryHandlerActivator constructed with a non-empty device list
calls destroy exactly once when its scope ends (the destructor is the
sole teardown path and C++ runs it on every exit path, normal or
unwinding); with an empty list destroy is never called. -/
theorem c1_scope_end_destroys_exactly_once (gpus : List Int)
    (s0 : MemoryHandler) :
    (((MemoryHandlerActivator.construct gpus s0).1).destruct
        (MemoryHandlerActivator.construct gpus s0).2.1).2.count
        Event.destroyCall
      = if 0 < gpus.length then 1 else 0 := by
  by_cases h : 0 < gpus.length
  · rw [destruct_after_construct_trace gpus s0 h]
    simp [h, List.count_cons]
  · simp [MemoryHandlerActivator.construct, MemoryHandlerActivator.destruct, h]

/-- C2: construction with a non-empty device list, from the fresh handler
state, enables pooling, records the device list, and performs a 4-byte
mallocGPU immediately followed by freeGPU of the very same pointer, in
that order. -/
theorem c2_construct_enables_records_roundtrips (gpus : List Int)
    (h : 0 < gpus.length) :
    ∃ p : Nat,
      (MemoryHandlerActivator.construct gpus MemoryHandler.initState).2.2
        = [Event.usePoolCall, Event.setGPUsCall gpus, Event.mallocCall 4,
           Event.reserve gpus, Event.poolAlloc 4 p 0, Event.freeCall p,
           Event.poolFree p 0] ∧
      (MemoryHandlerActivator.construct gpus
          MemoryHandler.initState).2.1.using_pool_ = true ∧
      (MemoryHandlerActivator.construct gpus
          MemoryHandler.initState).2.1.gpus_ = gpus := by
  refine ⟨1, ?_, ?_, ?_⟩ <;>
    simp [MemoryHandlerActivator.construct, MemoryHandler.initState,
      MemoryHandler.usePool, MemoryHandler.setGPUs, MemoryHandler.mallocGPU,
      MemoryHandler.Init, MemoryHandler.allocate_memory,
      MemoryHandler.freshPtr, MemoryHandler.freeGPU, h]

/-- Witness for C2 at the device list with the single device 0. -/
theorem c2_witness :
    ∃ p : Nat,
      (MemoryHandlerActivator.construct [0] MemoryHandler.initState).2.2
        = [Event.usePoolCall, Event.setGPUsCall [0], Event.mallocCall 4,
           Event.reserve [0], Event.poolAlloc 4 p 0, Event.freeCall p,
           Event.poolFree p 0] ∧
      (MemoryHandlerActivator.construct [0]
          MemoryHandler.initState).2.1.using_pool_ = true ∧
      (MemoryHandlerActivator.construct [0]
          MemoryHandler.initState).2.1.gpus_ = [0] :=
  c2_construct_enables_records_roundtrips [0] (by decide)

/-- C3: constructing an activator with an empty device list leaves the
handler state untouched and emits no event, its destructor likewise does
nothing, and usingPool reports false throughout the scope in both build
configurations whenever the handler starts with pooling off. -/
theorem c3_empty_list_no_side_effects (s0 : MemoryHandler)
    (h : s0.using_pool_ = false) :
    MemoryHandlerActivator.construct [] s0
        = ({ using_pool_ := false }, s0, []) ∧
    MemoryHandlerActivator.destruct { using_pool_ := false } s0 = (s0, []) ∧
    ∀ b : Bool, MemoryHandler.usingPool b s0 = false := by
  refine ⟨rfl, rfl, ?_⟩
  intro b
  cases b <;> simp [MemoryHandler.usingPool, h]

/-- Witness for C3 at the fresh handler state. -/
theorem c3_witness :
    MemoryHandlerActivator.construct [] MemoryHandler.initState
        = ({ using_pool_ := false }, MemoryHandler.initState, []) ∧
    MemoryHandlerActivator.destruct { using_pool_ := false }
        MemoryHandler.initState = (MemoryHandler.initState, []) ∧
    ∀ b : Bool, MemoryHandler.usingPool b MemoryHandler.initState = false :=
  c3_empty_list_no_side_effects MemoryHandler.initState rfl

/-- C4: after configure (usePool and setGPUs) and a first Init, a second
Init without an intervening destroy is a no-op: the pool state is
unchanged and no device-side reservation event is emitted, guarded by the
initialized flag. -/
theorem c4_second_init_noop (gpus : List Int) (s0 : MemoryHandler) :
    ((MemoryHandler.setGPUs gpus s0.usePool.1).1.Init.1).Init
      = ((MemoryHandler.setGPUs gpus s0.usePool.1).1.Init.1, []) := by
  by_cases hi : s0.initialized_ <;>
    simp [MemoryHandler.Init, MemoryHandler.setGPUs, MemoryHandler.usePool, hi]

/-- C5: mallocGPU always hands back a non-null pointer; when the pool is
initialized the request is served from the pool scoped to the calling
stream; when pooling is disabled and uninitialized it falls back to a
direct device allocation; and immediately after destroy the fallback
path is taken from any state, with the same success shape (a non-null
pointer), so pooled and non-pooled allocation are externally
indistinguishable on success. -/
theorem c5_alloc_pool_or_direct (s : MemoryHandler) (sz st : Nat) :
    (s.mallocGPU sz st).2.1 ≠ 0 ∧
    (s.initialized_ = true →
      (s.mallocGPU sz st).2.2
        = [Event.mallocCall sz,
           Event.poolAlloc sz (s.mallocGPU sz st).2.1 st]) ∧
    (s.using_pool_ = false → s.initialized_ = false →
      (s.mallocGPU sz st).2.2
        = [Event.mallocCall sz,
           Event.directAlloc sz (s.mallocGPU sz st).2.1]) ∧
    (s.destroy.1.mallocGPU sz st).2.2
        = [Event.mallocCall sz,
           Event.directAlloc sz (s.destroy.1.mallocGPU sz st).2.1] ∧
    (s.destroy.1.mallocGPU sz st).2.1 ≠ 0 := by
  by_cases hu : s.using_pool_ <;> by_cases hi : s.initialized_ <;>
    simp [MemoryHandler.mallocGPU, MemoryHandler.Init,
      MemoryHandler.allocate_memory, MemoryHandler.freshPtr,
      MemoryHandler.destroy, hu, hi]

/-- Witness for C5: the pooled branch at a concrete initialized state and
the direct branch at the fresh state. -/
theorem c5_witness :
    (({ using_pool_ := true, initialized_ := true, gpus_ := [0],
        nextPtr := 5 } : MemoryHandler).mallocGPU 1024 7).2.2
      = [Event.mallocCall 1024,
         Event.poolAlloc 1024
           (({ using_pool_ := true, initialized_ := true, gpus_ := [0],
               nextPtr := 5 } : MemoryHandler).mallocGPU 1024 7).2.1 7] ∧
    (MemoryHandler.initState.mallocGPU 1024 7).2.2
      = [Event.mallocCall 1024,
         Event.directAlloc 1024
           (MemoryHandler.initState.mallocGPU 1024 7).2.1] :=
  ⟨(c5_alloc_pool_or_direct
      { using_pool_ := true, initialized_ := true, gpus_ := [0],
        nextPtr := 5 } 1024 7).2.1 rfl,
   (c5_alloc_pool_or_direct MemoryHandler.initState 1024 7).2.2.1 rfl rfl⟩

/-- In every reachable singleton state the initialized flag implies the
enabled flag: the only transition that sets initialized is the lazy Init
inside mallocGPU, which fires only when pooling is enabled. -/
theorem reachable_initialized_implies_enabled (s : MemoryHandler)
    (h : Reachable s) : s.initialized_ = true → s.using_pool_ = true := by
  induction h with
  | start => simp [MemoryHandler.initState]
  | usePool _ _ => simp [MemoryHandler.usePool]
  | setGPUs g _ ih => simpa [MemoryHandler.setGPUs] using ih
  | @malloc s' sz st _ ih =>
    by_cases hu : s'.using_pool_ <;> by_cases hi : s'.initialized_ <;>
      simp [MemoryHandler.mallocGPU, MemoryHandler.Init,
        MemoryHandler.allocate_memory, MemoryHandler.freshPtr, hu, hi]
    all_goals simp_all
  | @free s' p st _ ih =>
    by_cases hi : s'.initialized_ <;>
      simp [MemoryHandler.freeGPU, hi]
    all_goals simp_all
  | @destroy s' _ ih =>
    by_cases hi : s'.initialized_ <;> simp [MemoryHandler.destroy, hi]

/-- C6: the invariant that initialized implies enabled holds in every
reachable state of the singleton; both flags start false at construction;
destroy resets both flags to false; and destroy on the never-initialized
fresh state is a no-op apart from the logged call. -/
theorem c6_invariant (s : MemoryHandler) (h : Reachable s) :
    (s.initialized_ = true → s.using_pool_ = true) ∧
    (s.destroy.1.initialized_ = false ∧ s.destroy.1.using_pool_ = false) ∧
    (MemoryHandler.initState.using_pool_ = false ∧
      MemoryHandler.initState.initialized_ = false) ∧
    MemoryHandler.initState.destroy
      = (MemoryHandler.initState, [Event.destroyCall]) := by
  refine ⟨reachable_initialized_implies_enabled s h, ?_, ⟨rfl, rfl⟩, ?_⟩
  · by_cases hi : s.initialized_ <;> simp [MemoryHandler.destroy, hi]
  · decide

/-- Witness for C6 at the reachable state produced by usePool on the
fresh state. -/
theorem c6_witness :
    ((MemoryHandler.initState.usePool.1.initialized_ = true →
        MemoryHandler.initState.usePool.1.using_pool_ = true) ∧
      (MemoryHandler.initState.usePool.1.destroy.1.initialized_ = false ∧
        MemoryHandler.initState.usePool.1.destroy.1.using_pool_ = false) ∧
      (MemoryHandler.initState.using_pool_ = false ∧
        MemoryHandler.initState.initialized_ = false) ∧
      MemoryHandler.initState.destroy
        = (MemoryHandler.initState, [Event.destroyCall])) :=
  c6_invariant MemoryHandler.initState.usePool.1
    (Reachable.usePool Reachable.start)

/-- C7: on any thread, set_mode followed by mode returns the value just
set, it stays set when a different thread sets its own mode, and setting
a thread's mode leaves every other thread's mode unchanged: the mode
lives in the calling thread's own instance. -/
theorem c7_mode_roundtrip_thread_local (g : CaffeThreads) (t u : ThreadId)
    (m m2 : Brew) (h : u ≠ t) :
    Caffe.mode t (Caffe.set_mode t m g) = m ∧
    Caffe.mode t (Caffe.set_mode u m2 (Caffe.set_mode t m g)) = m ∧
    Caffe.mode u (Caffe.set_mode t m g) = Caffe.mode u g := by
  refine ⟨?_, ?_, ?_⟩ <;>
    simp [Caffe.mode, Caffe.set_mode, h, Ne.symm h]

/-- Witness for C7 on threads 0 and 1. -/
theorem c7_witness :
    Caffe.mode 0 (Caffe.set_mode 0 Brew.GPU (fun _ => CaffeState.reset))
        = Brew.GPU ∧
    Caffe.mode 0 (Caffe.set_mode 1 Brew.CPU
        (Caffe.set_mode 0 Brew.GPU (fun _ => CaffeState.reset))) = Brew.GPU ∧
    Caffe.mode 1 (Caffe.set_mode 0 Brew.GPU (fun _ => CaffeState.reset))
        = Caffe.mode 1 (fun _ => CaffeState.reset) :=
  c7_mode_roundtrip_thread_local (fun _ => CaffeState.reset) 0 1
    Brew.GPU Brew.CPU (by decide)

/-- A single host-side draw depends only on the stored generator state:
two contexts with equal facades draw the same value and end with equal
facades. -/
theorem drawHost_det (c c' : CaffeState)
    (h : c.random_generator_ = c'.random_generator_) :
    (Caffe.drawHost c).2 = (Caffe.drawHost c').2 ∧
    (Caffe.drawHost c).1.random_generator_
      = (Caffe.drawHost c').1.random_generator_ := by
  rcases hc : c.random_generator_ with - | r <;>
    rw [hc] at h <;>
    simp [Caffe.drawHost, Caffe.rng_stream, hc, h.symm]

/-- A single device-side draw depends only on the stored generator
state. -/
theorem drawDevice_det (c c' : CaffeState)
    (h : c.random_generator_ = c'.random_generator_) :
    (Caffe.drawDevice c).2 = (Caffe.drawDevice c').2 ∧
    (Caffe.drawDevice c).1.random_generator_
      = (Caffe.drawDevice c').1.random_generator_ := by
  rcases hc : c.random_generator_ with - | r <;>
    rw [hc] at h <;>
    simp [Caffe.drawDevice, Caffe.rng_stream, hc, h.symm]

/-- A host-side draw sequence depends only on the stored generator
state. -/
theorem drawHostSeq_det (n : Nat) :
    ∀ c c' : CaffeState,
      c.random_generator_ = c'.random_generator_ →
      (Caffe.drawHostSeq c n).2 = (Caffe.drawHostSeq c' n).2 ∧
      (Caffe.drawHostSeq c n).1.random_generator_
        = (Caffe.drawHostSeq c' n).1.random_generator_ := by
  induction n with
  | zero => exact fun c c' h => ⟨rfl, h⟩
  | succ n ih =>
    intro c c' h
    obtain ⟨hv, hg⟩ := drawHost_det c c' h
    obtain ⟨hvs, hgs⟩ := ih (Caffe.drawHost c).1 (Caffe.drawHost c').1 hg
    exact ⟨by simp [Caffe.drawHostSeq, hv, hvs],
           by simp [Caffe.drawHostSeq, hgs]⟩

/-- A device-side draw sequence depends only on the stored generator
state. -/
theorem drawDeviceSeq_det (n : Nat) :
    ∀ c c' : CaffeState,
      c.random_generator_ = c'.random_generator_ →
      (Caffe.drawDeviceSeq c n).2 = (Caffe.drawDeviceSeq c' n).2 ∧
      (Caffe.drawDeviceSeq c n).1.random_generator_
        = (Caffe.drawDeviceSeq c' n).1.random_generator_ := by
  induction n with
  | zero => exact fun c c' h => ⟨rfl, h⟩
  | succ n ih =>
    intro c c' h
    obtain ⟨hv, hg⟩ := drawDevice_det c c' h
    obtain ⟨hvs, hgs⟩ := ih (Caffe.drawDevice c).1 (Caffe.drawDevice c').1 hg
    exact ⟨by simp [Caffe.drawDeviceSeq, hv, hvs],
           by simp [Caffe.drawDeviceSeq, hgs]⟩

/-- C8: set_random_seed reseeds both backends consistently, so after
set_random_seed with the same seed any two contexts — whatever their
prior history, in particular two independent resets — produce identical
host-side and identical device-side draw sequences: the draws are a
function of the seed alone. -/
theorem c8_seed_determinism (seed n : Nat) (c1 c2 : CaffeState) :
    (Caffe.drawHostSeq (Caffe.set_random_seed seed c1) n).2
      = (Caffe.drawHostSeq (Caffe.set_random_seed seed c2) n).2 ∧
    (Caffe.drawDeviceSeq (Caffe.set_random_seed seed c1) n).2
      = (Caffe.drawDeviceSeq (Caffe.set_random_seed seed c2) n).2 :=
  ⟨(drawHostSeq_det n _ _ (by simp [Caffe.set_random_seed])).1,
   (drawDeviceSeq_det n _ _ (by simp [Caffe.set_random_seed])).1⟩

/-- C9: executing a path marked NOT_IMPLEMENTED terminates the process
fatally: no code sequenced after it ever runs, and it never produces an
ok outcome. -/
theorem c9_not_implemented_fatal (β : Type) (k : Unit → Outcome β) :
    bindOutcome NOT_IMPLEMENTED k
        = Outcome.fatalError "Not Implemented Yet" ∧
    ∀ a : Unit, NOT_IMPLEMENTED ≠ Outcome.ok a := by
  constructor
  · rfl
  · intro a
    simp [NOT_IMPLEMENTED, LOG]

/-- C10: in a build without USE_CNMEM the usingPool query returns false
in every state, even when the internal enabled flag has been set by
usePool; yet a non-empty activator still calls destroy exactly once at
scope end, while usingPool reported false before and after. -/
theorem c10_no_cnmem_query_always_false (gpus : List Int)
    (s0 : MemoryHandler) (h : 0 < gpus.length) :
    (∀ s : MemoryHandler, MemoryHandler.usingPool false s = false) ∧
    (s0.usePool.1.using_pool_ = true ∧
      MemoryHandler.usingPool false s0.usePool.1 = false) ∧
    MemoryHandler.usingPool false
        (MemoryHandlerActivator.construct gpus s0).2.1 = false ∧
    (((MemoryHandlerActivator.construct gpus s0).1).destruct
        (MemoryHandlerActivator.construct gpus s0).2.1).2.count
        Event.destroyCall = 1 := by
  refine ⟨fun s => rfl, ⟨?_, rfl⟩, rfl, ?_⟩
  · simp [MemoryHandler.usePool]
  · by_cases hi : s0.initialized_ <;>
      simp [MemoryHandlerActivator.construct, MemoryHandlerActivator.destruct,
        MemoryHandler.usePool, MemoryHandler.setGPUs, MemoryHandler.mallocGPU,
        MemoryHandler.Init, MemoryHandler.allocate_memory,
        MemoryHandler.freshPtr, MemoryHandler.freeGPU, MemoryHandler.destroy,
        h, hi, List.count_cons]

/-- Witness for C10 at device list containing device 0 and the fresh
handler state. -/
theorem c10_witness :
    (∀ s : MemoryHandler, MemoryHandler.usingPool false s = false) ∧
    (MemoryHandler.initState.usePool.1.using_pool_ = true ∧
      MemoryHandler.usingPool false MemoryHandler.initState.usePool.1
        = false) ∧
    MemoryHandler.usingPool false
        (MemoryHandlerActivator.construct [0] MemoryHandler.initState).2.1
      = false ∧
    (((MemoryHandlerActivator.construct [0] MemoryHandler.initState).1).destruct
        (MemoryHandlerActivator.construct [0]
          MemoryHandler.initState).2.1).2.count Event.destroyCall = 1 :=
  c10_no_cnmem_query_always_false [0] MemoryHandler.initState (by decide)

end CaffeSpec
